import Mathlib

/-
  Verification of the control loop of the cloud-edge-lora-demo dispenser
  firmware (source/main.cpp) against its natural-language specification.

  The embedding models the program state visible to the control loop:
  the persisted ApplicationConfig values (dispenses left, battery alert
  state, transmit interval), the three interrupt latches, the 32-bit
  sleep deadline, and the network-session facts the loop reads or writes
  (join status, the disable-duty-cycle setting).  The body of the
  `while (true)` loop (main.cpp lines 132-204) is embedded as the pure
  function `cycle` from a device state and the per-cycle external inputs
  (pin reads, clock reads, join outcome) to the successor state plus the
  observable actions of the cycle (payload transmitted, sleep duration
  requested, whether a join was invoked).  The interrupt handlers
  `counter_dec`, `counter_reset`, `low_battery` (lines 27-40) are
  embedded as state transformers, and the boot-time provisioning branch
  (lines 68-128) as `startup`.

  Machine integers: `sleep_until`, `time(NULL)` and the sleep duration
  are `uint32_t` in the source; they are modelled as `Nat` with explicit
  reduction modulo `U32_MOD = 2 ^ 32` exactly where the source performs
  32-bit arithmetic (`u32_sub`, `u32_add`).

  The bodies of ApplicationConfig (ApplicationConfig.h, part of the
  repository but not among the provided sources) and of the dot_util
  helpers are modelled from the spec where the loop depends on them;
  each such definition carries a doc comment saying so.
-/

namespace CloudEdgeLora

/-- Full value the counter returns to on a reset, per the reset log line
in main.cpp ("USER Reset Dispenses to 1000(Full)") and the spec cold-boot
scenario. -/
def fullDispenses : Nat := 1000

/-- Modulus of 32-bit unsigned arithmetic. -/
def U32_MOD : Nat := 4294967296

/-- Unsigned 32-bit subtraction, wrapping modulo 2 ^ 32, as performed by
the C expression of type uint32_t in main.cpp line 143. -/
def u32_sub (a b : Nat) : Nat := (a % U32_MOD + U32_MOD - b % U32_MOD) % U32_MOD

/-- Unsigned 32-bit addition, wrapping modulo 2 ^ 32 (main.cpp line 198). -/
def u32_add (a b : Nat) : Nat := (a + b) % U32_MOD

/-- Persisted ApplicationConfig values the loop reads and writes. -/
structure Config where
  dispensesLeft : Nat
  batteryLow : Bool
  txIntervalS : Nat
deriving DecidableEq

/-- Modelled from the spec: ApplicationConfig::decrease_dispenses_left is
declared in ApplicationConfig.h, which is not among the provided sources;
per spec section 4.1 the handler side effect on the counter is a
"decrement, clamped at 0", which truncated Nat subtraction realises. -/
def decrease_dispenses_left (c : Config) : Config :=
  { c with dispensesLeft := c.dispensesLeft - 1 }

/-- Modelled from the spec: ApplicationConfig::reset_dispenses_left resets
the counter to the configured full value (spec section 4.1: "reset it to a
configured full value"). -/
def reset_dispenses_left (c : Config) : Config :=
  { c with dispensesLeft := fullDispenses }

/-- Modelled from the spec: ApplicationConfig::alert_low_battery records the
low-battery alert state (spec section 6: setBatteryAlertState). -/
def alert_low_battery_cfg (c : Config) : Config :=
  { c with batteryLow := true }

/-- Modelled from the spec: ApplicationConfig::alert_stable_battery clears
the recorded battery alert state (spec section 6: setBatteryAlertState). -/
def alert_stable_battery_cfg (c : Config) : Config :=
  { c with batteryLow := false }

/-- Volatile interrupt latches of main.cpp lines 22-24. -/
structure Latches where
  counter_interrupt : Bool
  reset_interrupt : Bool
  low_battery_interrupt : Bool
deriving DecidableEq

/-- Device state visible to the control loop: the persisted config, the
three latches, the 32-bit sleep deadline (main.cpp line 25), the network
join status and the disable-duty-cycle setting held by the mDot object. -/
structure DeviceState where
  config : Config
  latches : Latches
  sleep_until : Nat
  joined : Bool
  disableDutyCycle : Bool
deriving DecidableEq

/-- Interrupt handler for a rising dispense edge (main.cpp lines 27-30):
sets the counter latch and decrements the persisted counter. -/
def counter_dec (s : DeviceState) : DeviceState :=
  { s with latches := { s.latches with counter_interrupt := true },
           config := decrease_dispenses_left s.config }

/-- Interrupt handler for a falling reset edge (main.cpp lines 32-35):
sets the reset latch and resets the persisted counter to full. -/
def counter_reset (s : DeviceState) : DeviceState :=
  { s with latches := { s.latches with reset_interrupt := true },
           config := reset_dispenses_left s.config }

/-- Interrupt handler for a falling low-battery edge (main.cpp lines
37-40): sets the low-battery latch and records the alert state. -/
def low_battery (s : DeviceState) : DeviceState :=
  { s with latches := { s.latches with low_battery_interrupt := true },
           config := alert_low_battery_cfg s.config }

/-- Modelled from the spec: the positive floor of the sleep duration
("floored at a minimum positive value", spec section 4.4); the concrete
floor value is not given by the spec, one second is taken. -/
def minSleepFloor : Nat := 1

/-- Modelled from the spec: calculate_actual_sleep_time lives in dot_util,
which is not among the provided sources; spec section 4.4 describes it as
"sleepDuration = targetIntervalSeconds − elapsedSinceLastWake, floored at
a minimum positive value". -/
def calculate_actual_sleep_time (targetIntervalSeconds elapsedSinceLastWake : Nat) : Nat :=
  max minSleepFloor (targetIntervalSeconds - elapsedSinceLastWake)

/-- External inputs consumed by one iteration of the while loop: the
dispense pin level read at the top of the loop (line 133), the two
lowBat pin reads during payload composition (lines 171 and 177, true
meaning the pin reads 1 = healthy), the clock read of the fast path
(line 143), the clock read after transmission (line 198), the outcome of
a join attempt should one happen (join_network is in dot_util, not among
the provided sources; the spec gives join -> success or failure), and the
elapsed-time argument consumed by calculate_actual_sleep_time. -/
structure CycleInputs where
  dispensePin : Bool
  lowBatRead1 : Bool
  lowBatRead2 : Bool
  now : Nat
  nowAfterTx : Nat
  joinSucceeds : Bool
  elapsed : Nat
deriving DecidableEq

/-- Observable outcome of one loop iteration: the successor device state,
the payload handed to send_data (none when the dispense fast path skipped
transmission), the duration passed to the sleep primitive, and whether
join_network was invoked. -/
structure CycleResult where
  state : DeviceState
  transmitted : Option (List Nat)
  sleepDuration : Nat
  joinInvoked : Bool
deriving DecidableEq

/-- One iteration of the while loop, main.cpp lines 132-204.
Line 133 overwrites the counter latch with the instantaneous pin level;
lines 138-147 are the dispense fast path (extra decrement, raw 32-bit
sleep_until - now, back to sleep with no transmission); lines 149-154
clear the reset latch (the handler already reset the counter); lines
159-162 join and then call setDisableDutyCycle(false); lines 164-181
compose the payload (two big-endian counter bytes, then the battery
logic with its two pin reads); lines 197-203 compute the next sleep
duration and deadline. -/
def cycle (s0 : DeviceState) (i : CycleInputs) : CycleResult :=
  let s1 : DeviceState :=
    { s0 with latches := { s0.latches with counter_interrupt := i.dispensePin } }
  if s1.latches.counter_interrupt then
    let s2 := { s1 with config := decrease_dispenses_left s1.config }
    let s3 := { s2 with latches := { s2.latches with counter_interrupt := false } }
    { state := s3,
      transmitted := none,
      sleepDuration := u32_sub s3.sleep_until i.now,
      joinInvoked := false }
  else
    let s2 :=
      if s1.latches.reset_interrupt then
        { s1 with latches := { s1.latches with reset_interrupt := false } }
      else s1
    let joinStep :=
      if !s2.joined then
        ({ s2 with joined := i.joinSucceeds, disableDutyCycle := false }, true)
      else (s2, false)
    let s3 := joinStep.1
    let dispenses_left := s3.config.dispensesLeft
    let tx0 : List Nat := [(dispenses_left >>> 8) % 256, dispenses_left % 256]
    let batStep1 :=
      if i.lowBatRead1 && s3.config.batteryLow then
        ({ s3 with config := alert_stable_battery_cfg s3.config }, tx0 ++ [0x00])
      else (s3, tx0)
    let s4 := batStep1.1
    let batStep2 :=
      if !i.lowBatRead2 then
        ({ s4 with config := alert_low_battery_cfg s4.config }, batStep1.2 ++ [0x01])
      else (s4, batStep1.2)
    let s5 := batStep2.1
    let sleep_time := calculate_actual_sleep_time s5.config.txIntervalS i.elapsed
    let s6 := { s5 with sleep_until := u32_add i.nowAfterTx sleep_time }
    { state := s6,
      transmitted := some batStep2.2,
      sleepDuration := sleep_time,
      joinInvoked := joinStep.2 }

/-- Outcome of the boot-time branch of main, lines 68-128. -/
structure BootResult where
  config : Config
  joined : Bool
  disableDutyCycle : Bool
deriving DecidableEq

/-- Boot-time provisioning branch of main, lines 68-128.  On a cold boot
(standby flag clear) the stored transmit interval is clamped to 60
seconds if it exceeds 60 (lines 73-75), the network session is reset
(line 82, so the device is unjoined), and setDisableDutyCycle(true) is
called (line 96).  On a warm wake from standby the whole block is
skipped and the session is restored from NVM (lines 126-127), leaving
the stored interval, the restored join status and the prior duty-cycle
setting untouched. -/
def startup (standbyFlag : Bool) (stored : Config) (nvmJoined nvmDutyDisabled : Bool) :
    BootResult :=
  if !standbyFlag then
    let c := if stored.txIntervalS > 60 then { stored with txIntervalS := 60 } else stored
    { config := c, joined := false, disableDutyCycle := true }
  else
    { config := stored, joined := nvmJoined, disableDutyCycle := nvmDutyDisabled }

/-- Concrete device state for counterexamples and witnesses: counter at 5,
battery healthy, interval 60 s, no latch pending, deadline at t = 100,
joined, with the duty-cycle restriction in force. -/
def exState : DeviceState :=
  { config := { dispensesLeft := 5, batteryLow := false, txIntervalS := 60 },
    latches := { counter_interrupt := false, reset_interrupt := false,
                 low_battery_interrupt := false },
    sleep_until := 100,
    joined := true,
    disableDutyCycle := false }

/-- Concrete cycle inputs: dispense pin high at drain, battery pin healthy
on both reads, clock at 40 (before the deadline of exState). -/
def exInputHigh : CycleInputs :=
  { dispensePin := true, lowBatRead1 := true, lowBatRead2 := true,
    now := 40, nowAfterTx := 200, joinSucceeds := true, elapsed := 0 }

/-- Concrete cycle inputs: dispense pin low at drain, battery pin healthy
on both reads. -/
def exInputLow : CycleInputs :=
  { dispensePin := false, lowBatRead1 := true, lowBatRead2 := true,
    now := 40, nowAfterTx := 200, joinSucceeds := true, elapsed := 0 }

/-- Concrete device state with all three latches set, as after one firing
of each interrupt handler on exState. -/
def exStateAllLatches : DeviceState := low_battery (counter_reset (counter_dec exState))

/-- Concrete cycle inputs with the dispense pin high and the clock read at
150, past the deadline of exState (sleep_until = 100): an overrun fast
path. -/
def exInputOverrun : CycleInputs :=
  { dispensePin := true, lowBatRead1 := true, lowBatRead2 := true,
    now := 150, nowAfterTx := 200, joinSucceeds := true, elapsed := 0 }

/-- Concrete device state with the counter at 997 and a recorded
low-battery alert. -/
def exStateBatLow : DeviceState :=
  { config := { dispensesLeft := 997, batteryLow := true, txIntervalS := 60 },
    latches := { counter_interrupt := false, reset_interrupt := false,
                 low_battery_interrupt := false },
    sleep_until := 100,
    joined := true,
    disableDutyCycle := false }

/-- Concrete cycle inputs whose two battery-pin reads disagree: the first
read sees the pin healthy, the second sees it low (the pin dropped during
payload composition). -/
def exInputBatFlip : CycleInputs :=
  { dispensePin := false, lowBatRead1 := true, lowBatRead2 := false,
    now := 40, nowAfterTx := 200, joinSucceeds := true, elapsed := 0 }

/-- Concrete stored configuration for the boot-time counterexample. -/
def exStoredConfig : Config :=
  { dispensesLeft := 1000, batteryLow := false, txIntervalS := 120 }

end CloudEdgeLora

namespace CloudEdgeLora

/-- C10: on every loop iteration the dispense-wake classification is
determined solely by the instantaneous dispense pin level at drain time:
the loop overwrites the handler-set dispense latch with a fresh pin read
(the cycle outcome is invariant under the prior latch value), the cycle
skips transmission exactly when the pin reads high, and a pin high at
drain causes one additional counter decrement beyond the handler's, while
a pin low at drain leaves the counter untouched and proceeds to
transmit. -/
theorem claim10_pin_level_drain (s : DeviceState) (i : CycleInputs) (b : Bool) :
    cycle { s with latches := { s.latches with counter_interrupt := b } } i = cycle s i
    ∧ ((cycle s i).transmitted).isNone = i.dispensePin
    ∧ (cycle s i).state.config.dispensesLeft
        = s.config.dispensesLeft - (if i.dispensePin then 1 else 0) := by
  obtain ⟨⟨dl, bl, ti⟩, ⟨ci, ri, li⟩, su, j, dcd⟩ := s
  obtain ⟨dp, r1, r2, no, nt, js, el⟩ := i
  refine ⟨rfl, ?_, ?_⟩ <;>
    cases dp <;> cases ri <;> cases j <;> cases r1 <;> cases bl <;> cases r2 <;> rfl

/-- C8 counterexample: the claim that every latch set by its handler is
cleared exactly once by the control loop fails for the low-battery latch.
After the low_battery handler fires (state exStateAllLatches) the loop
runs a full transmit cycle (dispense pin low) yet the low-battery latch is
still set afterwards: the loop never reads or clears it. -/
theorem claim8_counterexample :
    (cycle exStateAllLatches exInputLow).state.latches.low_battery_interrupt = true
    ∧ (cycle exStateAllLatches exInputLow).transmitted.isSome = true := by
  decide

/-- C8 amended: of the three latches, only two are managed by the loop.
The low-battery latch is never written by the loop (it survives every
cycle unchanged, so once set by the handler it remains set forever; the
loop polls the pin instead).  The dispense latch is overwritten with the
instantaneous pin level at the top of every iteration and is false at the
end of every cycle.  The reset latch is cleared by the cycle unless the
dispense fast path short-circuits the iteration, in which case it is left
pending. -/
theorem claim8_amended_latch_clearing (s : DeviceState) (i : CycleInputs) :
    (cycle s i).state.latches.low_battery_interrupt = s.latches.low_battery_interrupt
    ∧ (cycle s i).state.latches.counter_interrupt = false
    ∧ (cycle s i).state.latches.reset_interrupt
        = (if i.dispensePin then s.latches.reset_interrupt else false) := by
  obtain ⟨⟨dl, bl, ti⟩, ⟨ci, ri, li⟩, su, j, dcd⟩ := s
  obtain ⟨dp, r1, r2, no, nt, js, el⟩ := i
  refine ⟨?_, ?_, ?_⟩ <;>
    cases dp <;> cases ri <;> cases j <;> cases r1 <;> cases bl <;> cases r2 <;> rfl

/-- C9: the upper bound on the reporting interval is applied exactly once,
at cold start.  On a cold boot (standby flag clear) the stored interval is
reduced to the 60-second ceiling when it exceeds it; on a warm wake from
standby provisioning is skipped and the stored interval is used as-is;
and the control loop itself never changes the stored interval. -/
theorem claim9_interval_clamp_cold_start (flag : Bool) (c : Config) (j d : Bool) :
    (startup flag c j d).config.txIntervalS
      = (if flag then c.txIntervalS else min c.txIntervalS 60)
    ∧ ∀ (s : DeviceState) (i : CycleInputs),
        (cycle s i).state.config.txIntervalS = s.config.txIntervalS := by
  constructor
  · cases flag
    · obtain ⟨dl, bl, ti⟩ := c
      by_cases h : ti > 60 <;> simp [startup, h] <;> omega
    · simp [startup]
  · intro s i
    obtain ⟨⟨dl, bl, ti⟩, ⟨ci, ri, li⟩, su, j2, dcd⟩ := s
    obtain ⟨dp, r1, r2, no, nt, js, el⟩ := i
    cases dp <;> cases ri <;> cases j2 <;> cases r1 <;> cases bl <;> cases r2 <;> rfl

/-- C6: battery alert policy of a transmit cycle whose two battery-pin
reads agree (pin level b, true = healthy).  If the pin reads low, the
0x01 low-alert byte is appended after the two counter bytes and the
stored batteryLow state ends set, regardless of the stored state (so
consecutive low cycles each resend the alert).  If the pin reads healthy
and the stored state was low, exactly the 0x00 stable byte is appended
and the stored state ends cleared; if the pin reads healthy with the
stored state clear, no battery byte is appended — hence consecutive
healthy cycles emit the stable byte only on the transition cycle. -/
theorem claim6_battery_alert_policy (s : DeviceState) (b js : Bool) (no nt el : Nat) :
    (cycle s ⟨false, b, b, no, nt, js, el⟩).state.config.batteryLow = !b
    ∧ (cycle s ⟨false, b, b, no, nt, js, el⟩).transmitted.map (fun p => p.drop 2)
        = some (if b then (if s.config.batteryLow then [0x00] else []) else [0x01]) := by
  obtain ⟨⟨dl, bl, ti⟩, ⟨ci, ri, li⟩, su, j, dcd⟩ := s
  refine ⟨?_, ?_⟩ <;>
    cases b <;> cases ri <;> cases j <;> cases bl <;> rfl

/-- Helper: n firings of the dispense handler decrement the counter n
times (clamped at 0 by Nat subtraction), set the counter latch as soon as
n is positive, and touch nothing else. -/
theorem counter_dec_iterate (n : Nat) (s : DeviceState) :
    counter_dec^[n] s =
      { s with
        config := { s.config with dispensesLeft := s.config.dispensesLeft - n },
        latches := { s.latches with
                     counter_interrupt := s.latches.counter_interrupt || !(n == 0) } } := by
  obtain ⟨⟨dl, bl, ti⟩, ⟨ci, ri, li⟩, su, j, dcd⟩ := s
  induction n with
  | zero => simp
  | succ k ih =>
      rw [Function.iterate_succ_apply', ih]
      simp [counter_dec, decrease_dispenses_left, Nat.sub_sub]

/-- Helper: the modelled calculate_actual_sleep_time is positive (it is
floored at minSleepFloor = 1). -/
theorem calc_sleep_pos (iv el : Nat) : 0 < calculate_actual_sleep_time iv el := by
  simp only [calculate_actual_sleep_time, minSleepFloor]
  omega

/-- Helper: on a transmit cycle (dispense pin low at drain) the duration
passed to the sleep primitive is calculate_actual_sleep_time applied to
the stored interval. -/
theorem cycle_tx_sleepDuration (s : DeviceState) (r1 r2 js : Bool) (no nt el : Nat) :
    (cycle s ⟨false, r1, r2, no, nt, js, el⟩).sleepDuration
      = calculate_actual_sleep_time s.config.txIntervalS el := by
  obtain ⟨⟨dl, bl, ti⟩, ⟨ci, ri, li⟩, su, j, dcd⟩ := s
  cases ri <;> cases j <;> cases r1 <;> cases bl <;> cases r2 <;> rfl

/-- C1 counterexample: with the counter at 5, a single dispense edge
(handler fires once) followed by a drain at which the dispense pin still
reads high leaves the counter at 3, not max(0, 5 - 1) = 4: the loop
applies an extra decrement beyond the handler's. -/
theorem claim1_counterexample :
    (cycle (counter_dec exState) exInputHigh).state.config.dispensesLeft = 3
    ∧ ¬((cycle (counter_dec exState) exInputHigh).state.config.dispensesLeft = 5 - 1) := by
  decide

/-- C1 amended: after n dispense edges during one sleep period, the value
at the drain depends on the instantaneous pin level.  If the pin reads
low at the drain, the payload carries exactly max(0, initial - n) (Nat
subtraction is the clamped difference) and the counter is unchanged by
the drain; if the pin still reads high, the loop applies one additional
decrement, leaving max(0, initial - n) - 1, and composes no payload that
cycle. -/
theorem claim1_amended_drain_count (s : DeviceState) (i : CycleInputs) (n : Nat) :
    (cycle (counter_dec^[n] s) i).transmitted.map (fun p => p.take 2)
      = (if i.dispensePin then none
         else some [((s.config.dispensesLeft - n) >>> 8) % 256,
                    (s.config.dispensesLeft - n) % 256])
    ∧ (cycle (counter_dec^[n] s) i).state.config.dispensesLeft
      = s.config.dispensesLeft - n - (if i.dispensePin then 1 else 0) := by
  rw [counter_dec_iterate]
  obtain ⟨⟨dl, bl, ti⟩, ⟨ci, ri, li⟩, su, j, dcd⟩ := s
  obtain ⟨dp, r1, r2, no, nt, js, el⟩ := i
  refine ⟨?_, ?_⟩ <;>
    cases dp <;> cases ri <;> cases j <;> cases r1 <;> cases bl <;> cases r2 <;> rfl

/-- C3 counterexample: with a reset pending (counter_reset fired, counter
back at the full value 1000 and the reset latch set) and the dispense pin
high at the drain, the cycle IS short-circuited back to sleep (nothing
transmitted), the reset latch survives the cycle, and the cycle ends
with the counter at 999, not the configured full value: the fast path is
checked before the reset latch and its decrement lands on top of the
handler-side reset. -/
theorem claim3_counterexample :
    (cycle (counter_reset exState) exInputHigh).transmitted = none
    ∧ (cycle (counter_reset exState) exInputHigh).state.latches.reset_interrupt = true
    ∧ ¬((cycle (counter_reset exState) exInputHigh).state.config.dispensesLeft
          = fullDispenses) := by
  decide

/-- C3 amended: the counter reset to the configured full value happens in
the reset interrupt handler at signal arrival, not at the drain, and the
loop checks the dispense pin before the reset latch.  Hence after a reset
followed by k dispense decrements: a drain with the pin high is
short-circuited back to sleep, keeps the reset latch pending and leaves
the counter at full - k - 1 (the fast-path extra decrement); a drain with
the pin low is not short-circuited, clears the reset latch, and places
full - k in the payload — decrements processed after the reset are NOT
overridden. -/
theorem claim3_amended_reset_semantics (s : DeviceState) (k : Nat) (r1 r2 js : Bool)
    (no nt el : Nat) :
    (cycle (counter_dec^[k] (counter_reset s)) ⟨true, r1, r2, no, nt, js, el⟩).transmitted
        = none
    ∧ (cycle (counter_dec^[k] (counter_reset s))
          ⟨true, r1, r2, no, nt, js, el⟩).state.latches.reset_interrupt = true
    ∧ (cycle (counter_dec^[k] (counter_reset s))
          ⟨true, r1, r2, no, nt, js, el⟩).state.config.dispensesLeft
        = fullDispenses - k - 1
    ∧ (cycle (counter_dec^[k] (counter_reset s))
          ⟨false, r1, r2, no, nt, js, el⟩).transmitted.map (fun p => p.take 2)
        = some [((fullDispenses - k) >>> 8) % 256, (fullDispenses - k) % 256]
    ∧ (cycle (counter_dec^[k] (counter_reset s))
          ⟨false, r1, r2, no, nt, js, el⟩).state.latches.reset_interrupt = false := by
  rw [counter_dec_iterate]
  obtain ⟨⟨dl, bl, ti⟩, ⟨ci, ri, li⟩, su, j, dcd⟩ := s
  refine ⟨?_, ?_, ?_, ?_, ?_⟩ <;>
    cases j <;> cases r1 <;> cases bl <;> cases r2 <;> rfl

/-- C7 counterexample: a transmitted payload of length 4 exists.  With a
recorded low-battery alert and the battery pin dropping from healthy to
low between the two pin reads of payload composition, the cycle appends
both the 0x00 stable byte and the 0x01 low-alert byte: the payload is
[0x03, 0xE5, 0x00, 0x01], of length 4, not 2 or 3. -/
theorem claim7_counterexample :
    ¬(((cycle exStateBatLow exInputBatFlip).transmitted.getD []).length = 2
      ∨ ((cycle exStateBatLow exInputBatFlip).transmitted.getD []).length = 3)
    ∧ ((cycle exStateBatLow exInputBatFlip).transmitted.getD [])
        = [0x03, 0xE5, 0x00, 0x01] := by
  decide

/-- C7 amended: on every transmit cycle whose two battery-pin reads agree
(pin level b on both reads), the payload starts with the two big-endian
bytes of the stored counter (its low 16 bits), has length 2 or 3, and any
third byte is 0x00 or 0x01.  Payloads of length 4 are possible only when
the pin level changes between the two reads, as witnessed by the
counterexample. -/
theorem claim7_amended_payload_shape (s : DeviceState) (b js : Bool) (no nt el : Nat) :
    ((cycle s ⟨false, b, b, no, nt, js, el⟩).transmitted.getD []).take 2
      = [(s.config.dispensesLeft >>> 8) % 256, s.config.dispensesLeft % 256]
    ∧ (((cycle s ⟨false, b, b, no, nt, js, el⟩).transmitted.getD []).length = 2
       ∨ ((cycle s ⟨false, b, b, no, nt, js, el⟩).transmitted.getD []).length = 3)
    ∧ (((cycle s ⟨false, b, b, no, nt, js, el⟩).transmitted.getD []).drop 2 = []
       ∨ ((cycle s ⟨false, b, b, no, nt, js, el⟩).transmitted.getD []).drop 2 = [0x00]
       ∨ ((cycle s ⟨false, b, b, no, nt, js, el⟩).transmitted.getD []).drop 2 = [0x01]) := by
  obtain ⟨⟨dl, bl, ti⟩, ⟨ci, ri, li⟩, su, j, dcd⟩ := s
  refine ⟨?_, ?_, ?_⟩ <;>
    cases b <;> cases ri <;> cases j <;> cases bl <;> simp [cycle]

/-- C5 counterexample: immediately after cold-start provisioning the
device is unjoined (the network session was reset) yet the duty-cycle
restriction is already disabled (main.cpp line 96 calls
setDisableDutyCycle(true) before any join): the restriction is disabled
while the device is unjoined, contrary to the claim. -/
theorem claim5_counterexample :
    (startup false exStoredConfig true false).disableDutyCycle = true
    ∧ (startup false exStoredConfig true false).joined = false := by
  decide

/-- C5 amended: the code does the inverse of the claim.  Cold-start
provisioning disables the duty-cycle restriction (setDisableDutyCycle
true) while leaving the device unjoined, and on a transmit cycle that
finds the device unjoined the loop invokes join and then calls
setDisableDutyCycle(false), i.e. re-enables enforcement after the join
attempt — the restriction is disabled precisely while unjoined, not kept
enabled until join. -/
theorem claim5_amended_duty_cycle (c : Config) (j d : Bool) (cfg : Config) (l : Latches)
    (su : Nat) (dcd r1 r2 js : Bool) (no nt el : Nat) :
    (startup false c j d).disableDutyCycle = true
    ∧ (startup false c j d).joined = false
    ∧ (cycle { config := cfg, latches := l, sleep_until := su, joined := false,
               disableDutyCycle := dcd }
          ⟨false, r1, r2, no, nt, js, el⟩).state.disableDutyCycle = false
    ∧ (cycle { config := cfg, latches := l, sleep_until := su, joined := false,
               disableDutyCycle := dcd }
          ⟨false, r1, r2, no, nt, js, el⟩).joinInvoked = true := by
  obtain ⟨dl, bl, ti⟩ := cfg
  obtain ⟨ci, ri, li⟩ := l
  refine ⟨rfl, rfl, ?_, ?_⟩ <;>
    cases ri <;> cases r1 <;> cases bl <;> cases r2 <;> rfl

/-- C2: on a wake where the dispense pin reads high at the drain, no reset
is pending and the reporting deadline has not elapsed (now is at most
sleep_until, which is a valid 32-bit value), the cycle transmits nothing,
invokes no network join, and requests a sleep of exactly the remainder of
the current interval, sleep_until - now, not a fresh full interval. -/
theorem claim2_dispense_only_wake (s : DeviceState) (i : CycleInputs)
    (hpin : i.dispensePin = true) (hreset : s.latches.reset_interrupt = false)
    (hdeadline : i.now ≤ s.sleep_until) (hbound : s.sleep_until < U32_MOD) :
    (cycle s i).transmitted = none
    ∧ (cycle s i).joinInvoked = false
    ∧ (cycle s i).sleepDuration = s.sleep_until - i.now := by
  obtain ⟨dp, r1, r2, no, nt, js, el⟩ := i
  obtain ⟨⟨dl, bl, ti⟩, ⟨ci, ri, li⟩, su, j, dcd⟩ := s
  simp only at hpin hdeadline hbound
  subst hpin
  refine ⟨rfl, rfl, ?_⟩
  show u32_sub su no = su - no
  simp only [u32_sub, U32_MOD] at *
  omega

/-- C2 witness: a concrete dispense-only wake (pin high, no reset pending,
clock at 40 against a deadline of 100) transmits nothing, joins nothing,
and sleeps for the remaining 60 seconds. -/
theorem claim2_dispense_only_wake_witness :
    (exInputHigh.dispensePin = true ∧ exState.latches.reset_interrupt = false
      ∧ exInputHigh.now ≤ exState.sleep_until ∧ exState.sleep_until < U32_MOD)
    ∧ ((cycle exState exInputHigh).transmitted = none
      ∧ (cycle exState exInputHigh).joinInvoked = false
      ∧ (cycle exState exInputHigh).sleepDuration
          = exState.sleep_until - exInputHigh.now) :=
  ⟨⟨rfl, rfl, by decide, by decide⟩,
   claim2_dispense_only_wake exState exInputHigh rfl rfl (by decide) (by decide)⟩

/-- C4 counterexample: the sleep duration is NOT clamped on the dispense
fast path.  With the deadline at 100, the clock at 150 (processing has
overrun the interval) and the dispense pin high, the requested sleep
duration is the wrapped 32-bit subtraction 2 ^ 32 - 50 = 4294967246
seconds — vastly exceeding the 60-second interval instead of being
floored at a small positive value. -/
theorem claim4_counterexample :
    (cycle exState exInputOverrun).sleepDuration = 4294967246
    ∧ exState.config.txIntervalS = 60
    ∧ ¬((cycle exState exInputOverrun).sleepDuration ≤ exState.config.txIntervalS) := by
  decide

/-- C4 amended: only the normal transmit path is clamped.  There the
duration is calculate_actual_sleep_time (modelled from the spec: floored
at the positive minSleepFloor), hence always positive.  On the dispense
fast path the duration is the raw 32-bit subtraction sleep_until - now,
which on overrun (sleep_until < now, both valid 32-bit values) wraps to
2 ^ 32 - (now - sleep_until) rather than being clamped. -/
theorem claim4_amended_sleep_wrap (s : DeviceState) (i : CycleInputs)
    (hpin : i.dispensePin = true) (hover : s.sleep_until < i.now)
    (hnow : i.now < U32_MOD) :
    (cycle s i).sleepDuration = U32_MOD - (i.now - s.sleep_until)
    ∧ (∀ iv el, 0 < calculate_actual_sleep_time iv el)
    ∧ (∀ (s2 : DeviceState) (r1 r2 js : Bool) (no nt el : Nat),
        0 < (cycle s2 ⟨false, r1, r2, no, nt, js, el⟩).sleepDuration) := by
  refine ⟨?_, fun iv el => calc_sleep_pos iv el, ?_⟩
  · obtain ⟨dp, r1, r2, no, nt, js, el⟩ := i
    obtain ⟨⟨dl, bl, ti⟩, ⟨ci, ri, li⟩, su, j, dcd⟩ := s
    simp only at hpin hover hnow
    subst hpin
    show u32_sub su no = U32_MOD - (no - su)
    simp only [u32_sub, U32_MOD] at *
    omega
  · intro s2 r1 r2 js no nt el
    rw [cycle_tx_sleepDuration]
    exact calc_sleep_pos _ _

/-- C4 witness: the fast-path wrap at the concrete overrun input (deadline
100, clock 150) yields 2 ^ 32 - 50, and the clamped transmit-path
duration is positive. -/
theorem claim4_amended_sleep_wrap_witness :
    (exInputOverrun.dispensePin = true ∧ exState.sleep_until < exInputOverrun.now
      ∧ exInputOverrun.now < U32_MOD)
    ∧ ((cycle exState exInputOverrun).sleepDuration
          = U32_MOD - (exInputOverrun.now - exState.sleep_until)
      ∧ (∀ iv el, 0 < calculate_actual_sleep_time iv el)
      ∧ (∀ (s2 : DeviceState) (r1 r2 js : Bool) (no nt el : Nat),
          0 < (cycle s2 ⟨false, r1, r2, no, nt, js, el⟩).sleepDuration)) :=
  ⟨⟨rfl, by decide, by decide⟩,
   claim4_amended_sleep_wrap exState exInputOverrun rfl (by decide) (by decide)⟩

end CloudEdgeLora
